import Mathlib

/-!
# Verification of the Koa/Redis link-shortener (`src/server.js`)

A shallow embedding of the request handlers of `src/server.js` over an
explicit model of the Redis hash store, together with theorems settling
the specification claims.

Conventions of the embedding:
* A Redis hash for a link record is `RHash`: each field is optional,
  because Redis hashes are partial field maps (in particular `HINCRBY`
  on an absent key creates a hash holding only the counter field).
* The store is an association list from keys to entries; an entry pairs
  the hash with its optional TTL (`EXPIRE` state).
* JavaScript truthiness on strings (`if (url)`, `ctx.assert(token, ...)`)
  is modelled by `strTruthy`: an absent value and the empty string are
  falsy.
* A handler returns `Resp α × Store`: either `Resp.ok` with the
  handler-specific success payload, or `Resp.err status` for an error
  response.  `ctx.assert(cond, s)` failing produces `Resp.err s`; an
  uncaught JavaScript exception (e.g. the `new URL(url)` throw, or a
  rejected Redis command) is mapped by Koa's default error handler to
  status 500 and is modelled as `Resp.err 500`.
* Randomness (`nanoid`) is modelled by passing the random byte stream
  explicitly: `nanoid rnd size` consumes `rnd : Nat → Nat`.
-/

/-- Model of the value of a JSON body field such as `expire`: either an
integer or a string.  Redis `EXPIRE` accepts only integer arguments and
rejects others with an error reply. -/
inductive JVal where
  | jnum : Int → JVal
  | jstr : String → JVal
deriving Repr, DecidableEq

/-- JavaScript truthiness of a JSON field value: `0` and `""` are falsy,
as tested by `if (expire)` in `src/server.js`. -/
def JVal.truthy : JVal → Bool
  | JVal.jnum n => n ≠ 0
  | JVal.jstr s => s ≠ ""

/-- JavaScript truthiness of a possibly-absent string (`undefined` and
`""` are falsy), as in `if (url)` and `ctx.assert(token, ...)`. -/
def strTruthy (o : Option String) : Bool :=
  o.getD "" ≠ ""

/-- A Redis hash holding (a subset of) the fields written for a link
record by `src/server.js` (`redis.hmset(linkid, {url, baseUrl,
accessed, createdAt, token})`).  Every field is optional because a Redis
hash is a partial field map. -/
structure RHash where
  url : Option String := none
  baseUrl : Option String := none
  accessed : Option Int := none
  createdAt : Option String := none
  token : Option String := none
deriving Repr, DecidableEq

/-- A stored entry at a key: the hash plus the optional TTL attached by
`EXPIRE`. -/
structure Entry where
  hash : RHash
  ttl : Option Int := none
deriving Repr, DecidableEq

/-- The Redis store: an association list from keys to entries. -/
abbrev Store := List (String × Entry)

/-- Key lookup in the store. -/
def Store.lookup : Store → String → Option Entry
  | [], _ => none
  | (k, e) :: rest, key => if k = key then some e else Store.lookup rest key

/-- Insert or replace the entry at a key. -/
def Store.put : Store → String → Entry → Store
  | [], key, v => [(key, v)]
  | (k, e) :: rest, key, v =>
    if k = key then (key, v) :: rest else (k, e) :: Store.put rest key v

/-- Remove the entry at a key (Redis `DEL`/`UNLINK`): every binding of
the key is dropped, so the association list stays a map. -/
def Store.remove : Store → String → Store
  | [], _ => []
  | (k, e) :: rest, key =>
    if k = key then Store.remove rest key else (k, e) :: Store.remove rest key

/-- `redis.hexists(key, "url")`: whether the key exists and its hash has
a `url` field. -/
def hexistsUrl (s : Store) (key : String) : Bool :=
  match s.lookup key with
  | some e => e.hash.url.isSome
  | none => false

/-- `redis.hget(key, "url")`. -/
def hgetUrl (s : Store) (key : String) : Option String :=
  match s.lookup key with
  | some e => e.hash.url
  | none => none

/-- `redis.hget(key, "token")`. -/
def hgetToken (s : Store) (key : String) : Option String :=
  match s.lookup key with
  | some e => e.hash.token
  | none => none

/-- `redis.hincrby(key, "accessed", 1)`: if the key is absent, Redis
creates a hash holding only the counter field with value 1; otherwise it
increments the field (absent field counts as 0).  Returns the new value
and the updated store. -/
def hincrbyAccessed (s : Store) (key : String) : Int × Store :=
  match s.lookup key with
  | some e =>
    let v := e.hash.accessed.getD 0 + 1
    (v, s.put key { e with hash := { e.hash with accessed := some v } })
  | none =>
    (1, s.put key { hash := { accessed := some 1 }, ttl := none })

/-- `redis.hmset(key, {url, baseUrl, accessed, createdAt, token})`: sets
all five fields of the hash at the key (creating the key if absent); the
TTL of an existing key is preserved by `HMSET`. -/
def hmsetRecord (s : Store) (key url baseUrl : String) (accessed : Int)
    (createdAt token : String) : Store :=
  let h : RHash :=
    { url := some url, baseUrl := some baseUrl, accessed := some accessed,
      createdAt := some createdAt, token := some token }
  match s.lookup key with
  | some e => s.put key { e with hash := h }
  | none => s.put key { hash := h, ttl := none }

/-- `redis.hset(key, "url", u)`: sets the single field, creating the key
if absent; the TTL of an existing key is preserved. -/
def hsetUrl (s : Store) (key u : String) : Store :=
  match s.lookup key with
  | some e => s.put key { e with hash := { e.hash with url := some u } }
  | none => s.put key { hash := { url := some u }, ttl := none }

/-- `redis.expire(key, seconds)` with an integer argument: returns 1 and
attaches the TTL if the key exists (Redis deletes the key at once for a
non-positive TTL), returns 0 if the key is absent. -/
def expireOp (s : Store) (key : String) (seconds : Int) : Nat × Store :=
  match s.lookup key with
  | some e =>
    if seconds ≤ 0 then (1, s.remove key)
    else (1, s.put key { e with ttl := some seconds })
  | none => (0, s)

/-- `redis.unlink(key)`: removes the key, returning the number of keys
removed (0 or 1). -/
def unlinkOp (s : Store) (key : String) : Nat × Store :=
  match s.lookup key with
  | some _ => (1, s.remove key)
  | none => (0, s)

/-- The 64-symbol URL-safe alphabet used by `nanoid`. -/
def urlAlphabet : List Char :=
  "useandom-26T198340PX75pxJACKVERYMINDBUSHWOLF_GQZbfghjklqvwyzrict".toList

/-- `nanoid(size)`: builds a string of `size` symbols of `urlAlphabet`,
indexing by the random byte stream `rnd` reduced mod 64. -/
def nanoid (rnd : Nat → Nat) (size : Nat) : String :=
  String.mk ((List.range size).map (fun i => urlAlphabet.getD (rnd i % 64) 'u'))

/-- `const LINKID_LEN = 7` of `src/server.js`. -/
def LINKID_LEN : Nat := 7

/-- First character of a URL scheme (WHATWG: an ASCII alpha). -/
def isSchemeStart (c : Char) : Bool :=
  ('a' ≤ c && c ≤ 'z') || ('A' ≤ c && c ≤ 'Z')

/-- Subsequent character of a URL scheme (WHATWG: ASCII alphanumeric,
`+`, `-` or `.`). -/
def isSchemeChar (c : Char) : Bool :=
  isSchemeStart c || ('0' ≤ c && c ≤ '9') || c = '+' || c = '-' || c = '.'

/-- Whether a list of characters starts with the rest of a scheme
followed by `:`. -/
def hasSchemeColon : List Char → Bool
  | [] => false
  | c :: rest => if c = ':' then true else isSchemeChar c && hasSchemeColon rest

/-- Models the platform `new URL(url)` constructor used for validation at
`src/server.js:44` and `src/server.js:183`: an external collaborator.  A
string parses as an absolute URL iff it begins with a scheme
(`[a-zA-Z][a-zA-Z0-9+.-]*`) followed by `:`; otherwise the constructor
throws. -/
def isAbsoluteURL (s : String) : Bool :=
  match s.toList with
  | [] => false
  | c :: rest => isSchemeStart c && hasSchemeColon rest

/-- Split a URL character list right after a `"://"` separator, if one
occurs: returns the part through `"://"` and the tail. -/
def splitSchemeSep : List Char → Option (List Char × List Char)
  | [] => none
  | ':' :: '/' :: '/' :: rest => some ([':', '/', '/'], rest)
  | c :: rest => (splitSchemeSep rest).map (fun p => (c :: p.1, p.2))

/-- Keep a character list up to and including its last `/` (empty if
there is none). -/
def keepThroughLastSlash (l : List Char) : List Char :=
  (l.reverse.dropWhile (fun c => c ≠ '/')).reverse

/-- Models the platform `new URL(rel, base)` relative resolution used to
build `shortLink` at `src/server.js:82`, for the service's uses: `rel`
is a bare segment (a nanoid), so it replaces the last `/`-segment of the
base's path; a hierarchical base without a path gets `/rel` appended. -/
def urlResolve (base rel : String) : String :=
  match splitSchemeSep base.toList with
  | some (head, tail) =>
    if tail.contains '/' then
      String.mk (head ++ keepThroughLastSlash tail) ++ rel
    else String.mk (head ++ tail) ++ "/" ++ rel
  | none => rel

/-- A JavaScript `\s` whitespace character (ASCII range). -/
def isJsSpace (c : Char) : Bool :=
  c = ' ' || c = '\t' || c = '\n' || c = '\r' || c = Char.ofNat 11 || c = Char.ofNat 12

/-- The test `/^token\s\S+$/i.test(auth)` at `src/server.js:23`: the
string is `token` (case-insensitively), one whitespace character, then
one or more non-whitespace characters to the end. -/
def matchesTokenHeader (s : String) : Bool :=
  match s.toList with
  | t :: o :: k :: e :: n :: w :: rest =>
    t.toLower = 't' && o.toLower = 'o' && k.toLower = 'k' &&
    e.toLower = 'e' && n.toLower = 'n' && isJsSpace w &&
    !rest.isEmpty && rest.all (fun c => !isJsSpace c)
  | _ => false

/-- The session middleware `router.all("*")` of `src/server.js:17-27`:
if the session already carries a (truthy) token it is kept; otherwise,
if the `Authorization` header matches `/^token\s\S+$/i`, its value
(`auth.substr(6)`) becomes the session token; otherwise a fresh
`nanoid(30)` is minted. -/
def sessionMiddleware (sessionToken : Option String) (authHeader : String)
    (rnd : Nat → Nat) : String :=
  if strTruthy sessionToken then sessionToken.getD ""
  else if matchesTokenHeader authHeader then authHeader.drop 6
  else nanoid rnd 30

/-- A handler outcome: `ok` with the handler's success payload, or `err`
with the HTTP error status (`ctx.assert` failures carry their status; an
uncaught JavaScript exception is Koa's default 500). -/
inductive Resp (α : Type) where
  | ok : α → Resp α
  | err : Nat → Resp α
deriving Repr, DecidableEq

/-- The identifier-allocation loop of `src/server.js:53-62` (`do { linkid
= nanoid(LINKID_LEN); ... } while (!linkid && attempts < 10)`): iteration
at collision count `attempts` draws candidate `nanoid (gen attempts)
LINKID_LEN`; a candidate whose key already has a `url` field counts as a
collision; the loop stops with `none` (JavaScript `undefined`) once
`attempts` reaches 10.  `fuel` bounds the recursion and is 10 at entry. -/
def allocLoop (s : Store) (gen : Nat → Nat → Nat) : Nat → Nat → Option String
  | 0, _ => none
  | fuel + 1, attempts =>
    let linkid := nanoid (gen attempts) LINKID_LEN
    if hexistsUrl s linkid then
      if attempts + 1 < 10 then allocLoop s gen fuel (attempts + 1) else none
    else some linkid

/-- Entry point of the allocation loop: 10 units of fuel, 0 collisions. -/
def allocate (s : Store) (gen : Nat → Nat → Nat) : Option String :=
  allocLoop s gen 10 0

/-- A decimal digit sequence read as a natural number; `none` if the
sequence is empty or contains a non-digit. -/
def parseDigits (cs : List Char) : Option Nat :=
  if cs.isEmpty then none
  else if cs.all (fun c => c.isDigit) then
    some (cs.foldl (fun a c => a * 10 + (c.toNat - 48)) 0)
  else none

/-- Models Redis `string2ll`, through which `EXPIRE` reads its argument:
an optional `-` sign followed by decimal digits with no leading zero
(the single digit `0` excepted, `+` and blanks rejected), within the
signed 64-bit range; any other string makes `EXPIRE` reply with an
error. -/
def parseRedisInt (s : String) : Option Int :=
  match s.toList with
  | [] => none
  | ['0'] => some 0
  | '-' :: c :: rest =>
    if '1' ≤ c && c ≤ '9' then
      match parseDigits (c :: rest) with
      | some v => if v ≤ 2 ^ 63 then some (-(v : Int)) else none
      | none => none
    else none
  | c :: rest =>
    if '1' ≤ c && c ≤ '9' then
      match parseDigits (c :: rest) with
      | some v => if v ≤ 2 ^ 63 - 1 then some ((v : Int)) else none
      | none => none
    else none

/-- The integer `EXPIRE` accepts for a body field, if any: ioredis
serializes every command argument to a string, so a JSON integer arrives
as its decimal rendering (accepted back unchanged) and a JSON string is
passed verbatim through `string2ll`. -/
def redisExpireArg : JVal → Option Int
  | JVal.jnum n => some n
  | JVal.jstr s => parseRedisInt s

/-- JSON body of `POST /`: `{url, baseUrl?, expire?}`. -/
structure PostBody where
  url : Option String := none
  baseUrl : Option String := none
  expire : Option JVal := none

/-- Success body of `POST /`: `{url, shortLink, linkid, token}` with
status 201.  `linkid` is `none` when the allocation loop exhausted (the
JavaScript value is then `undefined`). -/
structure PostOut where
  url : String
  shortLink : String
  linkid : Option String
  token : String
deriving Repr, DecidableEq

/-- The `router.post("/")` handler of `src/server.js:37-88`.  `new
URL(url)` throwing on an absent or malformed `url` surfaces as 500; the
allocation loop then runs; the record is written with `hmset` under the
resulting key — when the loop exhausted, `linkid` is `undefined`, which
ioredis (`utils.toArg`) serializes as the empty string, so the record
lands under the key `""`, while `new URL(linkid, baseUrl)` for the
`shortLink` stringifies `undefined` to the segment `"undefined"`;
`ctx.assert(res === "OK", 501)` passes because `HMSET` acknowledges in
this model; a truthy `expire` is then applied with `EXPIRE`, whose
argument Redis reads through `string2ll` — a non-integer-parsable value
is an error reply, an uncaught rejection (500). -/
def postHandler (s : Store) (body : PostBody) (sessionToken : String)
    (gen : Nat → Nat → Nat) (now : String) (port : String) :
    Resp PostOut × Store :=
  let baseUrl := body.baseUrl.getD ("http://localhost:" ++ port)
  match body.url with
  | none => (Resp.err 500, s)
  | some url =>
    if !isAbsoluteURL url then (Resp.err 500, s)
    else
      let token := sessionToken
      let linkid := allocate s gen
      let key := linkid.getD ""
      let s1 := hmsetRecord s key url baseUrl 0 now token
      let out : PostOut :=
        ⟨url, urlResolve baseUrl (linkid.getD "undefined"), linkid, token⟩
      match body.expire with
      | some e =>
        if e.truthy then
          match redisExpireArg e with
          | some n => (Resp.ok out, (expireOp s1 key n).2)
          | none => (Resp.err 500, s1)
        else (Resp.ok out, s1)
      | none => (Resp.ok out, s1)

/-- Success payload of `GET /:linkid`: status 301, `X-Accessed` header
carrying the new counter, and the redirect target. -/
structure GetOut where
  accessed : Int
  target : String
deriving Repr, DecidableEq

/-- The `router.get("/:linkid")` handler of `src/server.js:105-122`,
preceded by the `router.param("linkid")` length check of
`src/server.js:94-97` (`ctx.assert(linkid.length === LINKID_LEN,
422)`).  The `MULTI` transaction first runs `HINCRBY accessed 1`, then
`HGET url`; `ctx.assert(fullUrl, 404)` fires after the transaction, so
its mutation stands even on 404. -/
def getHandler (s : Store) (linkid : String) : Resp GetOut × Store :=
  if linkid.length ≠ LINKID_LEN then (Resp.err 422, s)
  else
    let (accessed, s1) := hincrbyAccessed s linkid
    let fullUrl := hgetUrl s1 linkid
    if strTruthy fullUrl then (Resp.ok ⟨accessed, fullUrl.getD ""⟩, s1)
    else (Resp.err 404, s1)

/-- The token-validation middleware `router.all("/:linkid")` of
`src/server.js:127-144` as it applies to non-GET methods: `HGET token`;
a falsy token (absent key or field) is a 404; a mismatch with the
session token is a 401; `none` means the request proceeds. -/
def authCheck (s : Store) (linkid sessionToken : String) : Option Nat :=
  let token := hgetToken s linkid
  if !strTruthy token then some 404
  else if token.getD "" ≠ sessionToken then some 401
  else none

/-- The `router.delete("/:linkid")` handler of `src/server.js:152-166`,
preceded by the length check and the token middleware: `UNLINK` the key
and respond 200 with `{removed}`. -/
def deleteHandler (s : Store) (linkid sessionToken : String) :
    Resp Nat × Store :=
  if linkid.length ≠ LINKID_LEN then (Resp.err 422, s)
  else
    match authCheck s linkid sessionToken with
    | some st => (Resp.err st, s)
    | none =>
      let (n, s1) := unlinkOp s linkid
      (Resp.ok n, s1)

/-- JSON body of `PATCH /:linkid`: `{url?, expire?}`. -/
structure PatchBody where
  url : Option String := none
  expire : Option JVal := none

/-- The `router.patch("/:linkid")` handler of `src/server.js:173-194`,
preceded by the length check and the token middleware.  `if (url)`: the
`new URL(url)` validation throws on a malformed value (500, nothing
written yet), otherwise `HSET` replaces the `url` field.  `if (expire)`:
`EXPIRE` is applied; Redis reads the argument through `string2ll`, so an
integer-parsable value (a JSON integer, or a string such as `"10"`) sets
the TTL, while a non-parsable value is an error reply, an uncaught
rejection (500) — by then the `url` write has already been applied.
Success is 200 with `{status: "success"}`. -/
def patchHandler (s : Store) (linkid sessionToken : String)
    (body : PatchBody) : Resp Unit × Store :=
  if linkid.length ≠ LINKID_LEN then (Resp.err 422, s)
  else
    match authCheck s linkid sessionToken with
    | some st => (Resp.err st, s)
    | none =>
      let afterUrl : Resp Unit × Store :=
        if strTruthy body.url then
          if isAbsoluteURL (body.url.getD "") then
            (Resp.ok (), hsetUrl s linkid (body.url.getD ""))
          else (Resp.err 500, s)
        else (Resp.ok (), s)
      match afterUrl with
      | (Resp.err st, s1) => (Resp.err st, s1)
      | (Resp.ok _, s1) =>
        match body.expire with
        | some e =>
          if e.truthy then
            match redisExpireArg e with
            | some n => (Resp.ok (), (expireOp s1 linkid n).2)
            | none => (Resp.err 500, s1)
          else (Resp.ok (), s1)
        | none => (Resp.ok (), s1)

/-! ## Basic lemmas about the store model -/

theorem Store.lookup_put_self (s : Store) (k : String) (v : Entry) :
    (s.put k v).lookup k = some v := by
  induction s with
  | nil => simp [Store.put, Store.lookup]
  | cons hd tl ih =>
    obtain ⟨k0, e0⟩ := hd
    by_cases h : k0 = k
    · simp [Store.put, Store.lookup, h]
    · simp [Store.put, Store.lookup, h, ih]

theorem Store.lookup_remove_self (s : Store) (k : String) :
    (s.remove k).lookup k = none := by
  induction s with
  | nil => simp [Store.remove, Store.lookup]
  | cons hd tl ih =>
    obtain ⟨k0, e0⟩ := hd
    by_cases h : k0 = k
    · simp [Store.remove, h, ih]
    · simp [Store.remove, Store.lookup, h, ih]

theorem nanoid_length (rnd : Nat → Nat) (n : Nat) :
    (nanoid rnd n).length = n := by
  simp [nanoid, String.length]

theorem isAbsoluteURL_ne_empty (u : String) (h : isAbsoluteURL u = true) :
    u ≠ "" := by
  intro he
  rw [he] at h
  exact absurd h (by decide)

theorem strTruthy_some (u : String) (h : u ≠ "") :
    strTruthy (some u) = true := by
  simp [strTruthy, h]

/-- A successful allocation returns one of the drawn nanoid candidates,
hence a string of length `LINKID_LEN`. -/
theorem allocLoop_some_length (s : Store) (gen : Nat → Nat → Nat) :
    ∀ (fuel attempts : Nat) (l : String),
      allocLoop s gen fuel attempts = some l → l.length = LINKID_LEN := by
  intro fuel
  induction fuel with
  | zero => intro _ _ h; simp [allocLoop] at h
  | succ n ih =>
    intro attempts l h
    unfold allocLoop at h
    by_cases hc : hexistsUrl s (nanoid (gen attempts) LINKID_LEN)
    · rw [if_pos hc] at h
      by_cases ha : attempts + 1 < 10
      · exact ih (attempts + 1) l (by rwa [if_pos ha] at h)
      · rw [if_neg ha] at h; exact absurd h (by simp)
    · rw [if_neg hc] at h
      cases h
      exact nanoid_length _ _

theorem allocate_some_length (s : Store) (gen : Nat → Nat → Nat) (l : String)
    (h : allocate s gen = some l) : l.length = LINKID_LEN :=
  allocLoop_some_length s gen 10 0 l h

/-- The entry written by `hmsetRecord` at its key: all five fields set,
the TTL either preserved or fresh. -/
theorem hmsetRecord_lookup_self (s : Store)
    (key url baseUrl createdAt token : String) (accessed : Int) :
    ∃ t : Option Int,
      (hmsetRecord s key url baseUrl accessed createdAt token).lookup key =
        some { hash := { url := some url, baseUrl := some baseUrl,
                         accessed := some accessed,
                         createdAt := some createdAt, token := some token },
               ttl := t } := by
  unfold hmsetRecord
  cases h : s.lookup key with
  | none => exact ⟨none, by simp [h, Store.lookup_put_self]⟩
  | some e => exact ⟨e.ttl, by simp [h, Store.lookup_put_self]⟩

/-! ## Derived definitions used by the claim statements -/

/-- The store after `n` sequential `GET /:linkid` resolves of the same
identifier. -/
def iterResolve (s : Store) (l : String) : Nat → Store
  | 0 => s
  | n + 1 => (getHandler (iterResolve s l n) l).2

/-- A sample stored link record, as written by the create handler. -/
def sampleEntry : Entry :=
  { hash := { url := some "https://a.b/c",
              baseUrl := some "http://localhost:3000",
              accessed := some 0, createdAt := some "t0",
              token := some "tok123" },
    ttl := none }

/-- A one-record sample store. -/
def sampleStore : Store := [("aaaaaAA", sampleEntry)]

/-- A store containing the first ten allocation candidates drawn by the
stream family `fun a => fun i => a`, each with a `url` field, so that
every one of the 10 allocation attempts collides. -/
def collStore : Store :=
  (List.range 10).map
    (fun a => (nanoid (fun _ => a) LINKID_LEN, { hash := { url := some "x" } }))

/-! ## Claim theorems -/

/-- C1, counterexample: a GET for the well-formed identifier `"aaaaaaa"`
on the empty store responds 404 as claimed, but it does NOT leave the
store unchanged: the `HINCRBY` step of the `MULTI` creates a record
under the absent key. -/
theorem c1_counterexample :
    (getHandler [] "aaaaaaa").1 = Resp.err 404 ∧
      (getHandler [] "aaaaaaa").2 ≠ ([] : Store) := by
  constructor
  · decide
  · decide

/-- C1, amended: a GET for a well-formed 7-character identifier that is
absent from the store responds 404 and does not redirect, but the store
is mutated: the `HINCRBY` of the `MULTI` transaction creates a record
under that key holding only the counter field with value 1 (the accessed
counter for the absent identifier is created and incremented). -/
theorem c1_get_absent (s : Store) (l : String) (h7 : l.length = LINKID_LEN)
    (habs : s.lookup l = none) :
    getHandler s l =
      (Resp.err 404, s.put l { hash := { accessed := some 1 }, ttl := none }) := by
  simp [getHandler, hincrbyAccessed, hgetUrl, strTruthy, h7, habs,
    Store.lookup_put_self]

/-- Witness for `c1_get_absent` at the empty store and `"aaaaaaa"`. -/
theorem c1_get_absent_witness :
    getHandler [] "aaaaaaa" =
      (Resp.err 404,
       Store.put [] "aaaaaaa" { hash := { accessed := some 1 }, ttl := none }) :=
  c1_get_absent [] "aaaaaaa" (by decide) (by decide)

/-- C2, code bug: when all 10 allocation attempts collide (here: the
store `collStore` already holds every candidate the streams draw), the
handler does not fail with an `AllocationExhausted` server error and a
record IS written.  The loop exits with `linkid` undefined (`none`),
ioredis serializes the undefined key argument as the empty string, so
the record is written under the key `""`, and the response is a 201
success whose `linkid` is undefined and whose `shortLink` ends in the
URL-stringified segment `undefined` — contradicting the claim that the
10th collision fails with a server-side error and writes nothing. -/
theorem c2_exhaustion_writes_record :
    allocate collStore (fun a _ => a) = none ∧
    (postHandler collStore { url := some "https://x.y/z" } "tk"
        (fun a _ => a) "now" "3000").1 =
      Resp.ok { url := "https://x.y/z",
                shortLink := "http://localhost:3000/undefined",
                linkid := none, token := "tk" } ∧
    (postHandler collStore { url := some "https://x.y/z" } "tk"
        (fun a _ => a) "now" "3000").2.lookup "" ≠ none := by
  refine ⟨by decide, by decide, by decide⟩

/-- C4, counterexample: on the sample store, DELETE with the matching
owner token responds 200 with `removed = 1`, but a second DELETE of the
same identifier with the same token responds 404 — not a success with
`removed = 0` as claimed: the token middleware finds no token for the
now-absent key. -/
theorem c4_counterexample :
    (deleteHandler sampleStore "aaaaaAA" "tok123").1 = Resp.ok 1 ∧
    (deleteHandler (deleteHandler sampleStore "aaaaaAA" "tok123").2
        "aaaaaAA" "tok123").1 = Resp.err 404 ∧
    (deleteHandler (deleteHandler sampleStore "aaaaaAA" "tok123").2
        "aaaaaAA" "tok123").1 ≠ Resp.ok 0 := by
  refine ⟨by decide, by decide, by decide⟩

/-- C4, amended: for every stored record, a DELETE with the matching
owner token responds 200 with `removed` exactly 1 and removes the key; a
second DELETE of the same identifier with the same token responds 404
(the token middleware rejects the request because the record no longer
exists), not a success with `removed = 0`. -/
theorem c4_delete_twice (s : Store) (l tok : String) (e : Entry)
    (h7 : l.length = LINKID_LEN) (he : s.lookup l = some e)
    (ht : e.hash.token = some tok) (htne : tok ≠ "") :
    deleteHandler s l tok = (Resp.ok 1, s.remove l) ∧
    deleteHandler (s.remove l) l tok = (Resp.err 404, s.remove l) := by
  constructor
  · simp [deleteHandler, authCheck, hgetToken, strTruthy, unlinkOp, h7, he,
      ht, htne]
  · simp [deleteHandler, authCheck, hgetToken, strTruthy, h7,
      Store.lookup_remove_self]

/-- Witness for `c4_delete_twice` on the sample store. -/
theorem c4_delete_twice_witness :
    deleteHandler sampleStore "aaaaaAA" "tok123" =
      (Resp.ok 1, Store.remove sampleStore "aaaaaAA") ∧
    deleteHandler (Store.remove sampleStore "aaaaaAA") "aaaaaAA" "tok123" =
      (Resp.err 404, Store.remove sampleStore "aaaaaAA") :=
  c4_delete_twice sampleStore "aaaaaAA" "tok123" sampleEntry (by decide)
    (by decide) (by decide) (by decide)

/-- C5, counterexample: a POST whose `url` is not a well-formed absolute
URL is rejected with status 500 — the uncaught `new URL(url)` throw — and
not with 422 as claimed. -/
theorem c5_counterexample :
    postHandler [] { url := some "not a url" } "tk" (fun _ _ => 0) "now"
        "3000" = (Resp.err 500, ([] : Store)) ∧
    (postHandler [] { url := some "not a url" } "tk" (fun _ _ => 0) "now"
        "3000").1 ≠ Resp.err 422 := by
  refine ⟨by decide, by decide⟩

/-- C5, amended: a POST whose `url` field is absent or not a well-formed
absolute URL is rejected with status 500 (the `new URL(url)` throw is
uncaught, so Koa's default handler answers 500, not 422), and no store
mutation is performed before this rejection. -/
theorem c5_invalid_url_post (s : Store) (body : PostBody) (tok : String)
    (gen : Nat → Nat → Nat) (now port : String)
    (hbad : isAbsoluteURL (body.url.getD "") = false) :
    postHandler s body tok gen now port = (Resp.err 500, s) := by
  cases hu : body.url with
  | none => simp [postHandler, hu]
  | some u =>
    rw [hu] at hbad
    simp only [Option.getD_some] at hbad
    simp [postHandler, hu, hbad]

/-- Witness for `c5_invalid_url_post` at a malformed url. -/
theorem c5_invalid_url_post_witness :
    postHandler [] { url := some "not a url" } "tk" (fun _ _ => 1) "now"
      "3000" = (Resp.err 500, ([] : Store)) :=
  c5_invalid_url_post [] { url := some "not a url" } "tk" (fun _ _ => 1)
    "now" "3000" (by decide)

/-- C6: for every stored record, a DELETE whose session token differs
from the record's owner token responds 401 and leaves the whole store —
in particular every field of the record and its TTL — unchanged, and a
subsequent DELETE with the correct token still succeeds with `removed`
exactly 1. -/
theorem c6_wrong_token_delete (s : Store) (l tok sess : String) (e : Entry)
    (h7 : l.length = LINKID_LEN) (he : s.lookup l = some e)
    (ht : e.hash.token = some tok) (htne : tok ≠ "") (hmis : sess ≠ tok) :
    deleteHandler s l sess = (Resp.err 401, s) ∧
    deleteHandler s l tok = (Resp.ok 1, s.remove l) := by
  constructor
  · have hmis' : tok ≠ sess := fun h => hmis h.symm
    simp [deleteHandler, authCheck, hgetToken, strTruthy, h7, he, ht, htne,
      hmis']
  · simp [deleteHandler, authCheck, hgetToken, strTruthy, unlinkOp, h7, he,
      ht, htne]

/-- Witness for `c6_wrong_token_delete` on the sample store. -/
theorem c6_wrong_token_delete_witness :
    deleteHandler sampleStore "aaaaaAA" "wrong" = (Resp.err 401, sampleStore) ∧
    deleteHandler sampleStore "aaaaaAA" "tok123" =
      (Resp.ok 1, Store.remove sampleStore "aaaaaAA") :=
  c6_wrong_token_delete sampleStore "aaaaaAA" "tok123" "wrong" sampleEntry
    (by decide) (by decide) (by decide) (by decide) (by decide)

/-- C7, counterexample: an authorized PATCH on the sample store carrying
a valid `url` together with a non-integer `expire` fails with 500, yet
the record's `url` field has already been replaced: the mutation is not
all-or-nothing, contradicting the claim that an invalid supplied field
leaves every field unchanged. -/
theorem c7_counterexample :
    (patchHandler sampleStore "aaaaaAA" "tok123"
        { url := some "https://new.example/", expire := some (JVal.jstr "abc") }) =
      (Resp.err 500, hsetUrl sampleStore "aaaaaAA" "https://new.example/") ∧
    hgetUrl (patchHandler sampleStore "aaaaaAA" "tok123"
        { url := some "https://new.example/",
          expire := some (JVal.jstr "abc") }).2 "aaaaaAA" =
      some "https://new.example/" ∧
    (patchHandler sampleStore "aaaaaAA" "tok123"
        { url := some "https://new.example/",
          expire := some (JVal.jstr "abc") }).2 ≠ sampleStore := by
  refine ⟨by decide, by decide, by decide⟩

/-- C7, amended: for an authorized PATCH carrying both a `url` and an
`expire` value, only the `url` is validated before any mutation: if the
`url` is malformed the request fails with 500 and no field changes; but
`expire` is never validated up front — with a valid `url` and an
`expire` string Redis cannot parse as an integer (e.g. `"abc"`), the
`url` update is applied first and the `EXPIRE` rejection then fails the
request with 500, so the operation is not all-or-nothing; with an
integer-parsable `expire` string (e.g. `"10"`) both the `url` write and
the TTL are applied, as two separate store mutations, and the request
succeeds. -/
theorem c7_patch_not_atomic (s : Store) (l sess u ex : String) (e : Entry)
    (h7 : l.length = LINKID_LEN) (he : s.lookup l = some e)
    (ht : e.hash.token = some sess) (htne : sess ≠ "")
    (hexne : ex ≠ "") :
    (isAbsoluteURL u = false → u ≠ "" →
      patchHandler s l sess { url := some u, expire := some (JVal.jstr ex) } =
        (Resp.err 500, s)) ∧
    (isAbsoluteURL u = true → parseRedisInt ex = none →
      patchHandler s l sess { url := some u, expire := some (JVal.jstr ex) } =
        (Resp.err 500, hsetUrl s l u)) ∧
    (∀ n : Int, isAbsoluteURL u = true → parseRedisInt ex = some n →
      patchHandler s l sess { url := some u, expire := some (JVal.jstr ex) } =
        (Resp.ok (), (expireOp (hsetUrl s l u) l n).2)) := by
  refine ⟨?_, ?_, ?_⟩
  · intro hbad hune
    simp [patchHandler, authCheck, hgetToken, strTruthy, h7, he, ht, htne,
      hbad, hune]
  · intro hgood hexbad
    have hune : u ≠ "" := isAbsoluteURL_ne_empty u hgood
    simp [patchHandler, authCheck, hgetToken, strTruthy, JVal.truthy,
      redisExpireArg, h7, he, ht, htne, hgood, hune, hexne, hexbad]
  · intro n hgood hexgood
    have hune : u ≠ "" := isAbsoluteURL_ne_empty u hgood
    simp [patchHandler, authCheck, hgetToken, strTruthy, JVal.truthy,
      redisExpireArg, h7, he, ht, htne, hgood, hune, hexne, hexgood]

/-- Witness for `c7_patch_not_atomic` on the sample store. -/
theorem c7_patch_not_atomic_witness :
    patchHandler sampleStore "aaaaaAA" "tok123"
        { url := some "https://new.example/",
          expire := some (JVal.jstr "abc") } =
      (Resp.err 500, hsetUrl sampleStore "aaaaaAA" "https://new.example/") :=
  (c7_patch_not_atomic sampleStore "aaaaaAA" "tok123" "https://new.example/"
      "abc" sampleEntry (by decide) (by decide) (by decide) (by decide)
      (by decide)).2.1 (by decide) (by decide)

/-- C8, counterexample: a GET for the 7-character identifier
`"@@@@@@@"`, whose characters lie outside the URL-safe alphabet, is NOT
rejected with 422: the length-only `router.param` check lets it through,
a store operation is performed (the `HINCRBY` creates a record under the
key), and the response is 404. -/
theorem c8_counterexample :
    (getHandler [] "@@@@@@@").1 ≠ Resp.err 422 ∧
    (getHandler [] "@@@@@@@").1 = Resp.err 404 ∧
    (getHandler [] "@@@@@@@").2 ≠ ([] : Store) := by
  refine ⟨by decide, by decide, by decide⟩

/-- C8, amended: the `router.param("linkid")` validation checks only the
length: every GET, PATCH or DELETE whose identifier is not exactly 7
characters long is rejected with 422 before any store operation (the
store is returned unchanged); an identifier of exactly 7 characters is
not checked against any alphabet and proceeds to the store. -/
theorem c8_length_only_validation (s : Store) (l sess : String)
    (body : PatchBody) (hlen : l.length ≠ LINKID_LEN) :
    getHandler s l = (Resp.err 422, s) ∧
    deleteHandler s l sess = (Resp.err 422, s) ∧
    patchHandler s l sess body = (Resp.err 422, s) := by
  refine ⟨?_, ?_, ?_⟩ <;> simp [getHandler, deleteHandler, patchHandler, hlen]

/-- Witness for `c8_length_only_validation` at the short identifier
`"abc"`. -/
theorem c8_length_only_validation_witness :
    getHandler sampleStore "abc" = (Resp.err 422, sampleStore) ∧
    deleteHandler sampleStore "abc" "tok123" = (Resp.err 422, sampleStore) ∧
    patchHandler sampleStore "abc" "tok123" {} = (Resp.err 422, sampleStore) :=
  c8_length_only_validation sampleStore "abc" "tok123" {} (by decide)

/-- C10: for every stored record, an authorized PATCH whose body carries
neither a `url` nor an `expire` value responds 200 with `{status:
"success"}` and returns the store unchanged — every field of the record
(url, baseUrl, accessed, createdAt, ownerToken) and any existing TTL is
preserved. -/
theorem c10_empty_patch (s : Store) (l sess : String) (e : Entry)
    (h7 : l.length = LINKID_LEN) (he : s.lookup l = some e)
    (ht : e.hash.token = some sess) (htne : sess ≠ "") :
    patchHandler s l sess { url := none, expire := none } = (Resp.ok (), s) := by
  simp [patchHandler, authCheck, hgetToken, strTruthy, h7, he, ht, htne]

/-- Witness for `c10_empty_patch` on the sample store. -/
theorem c10_empty_patch_witness :
    patchHandler sampleStore "aaaaaAA" "tok123" { url := none, expire := none } =
      (Resp.ok (), sampleStore) :=
  c10_empty_patch sampleStore "aaaaaAA" "tok123" sampleEntry (by decide)
    (by decide) (by decide) (by decide)

/-- C9: the session middleware.  A session already carrying a (truthy)
token keeps it unchanged; otherwise an `Authorization` header matching
the case-insensitive `token <value>` pattern has its value — the text
after the 6-character `token ` prelude — adopted as the session token;
otherwise a fresh `nanoid(30)` token, of length exactly 30, is minted. -/
theorem c9_session_token (tokenOpt : Option String) (auth : String)
    (rnd : Nat → Nat) :
    (∀ t : String, tokenOpt = some t → t ≠ "" →
      sessionMiddleware tokenOpt auth rnd = t) ∧
    (strTruthy tokenOpt = false → matchesTokenHeader auth = true →
      sessionMiddleware tokenOpt auth rnd = auth.drop 6) ∧
    (strTruthy tokenOpt = false → matchesTokenHeader auth = false →
      sessionMiddleware tokenOpt auth rnd = nanoid rnd 30 ∧
        (sessionMiddleware tokenOpt auth rnd).length = 30) := by
  refine ⟨?_, ?_, ?_⟩
  · intro t ht htne
    subst ht
    simp [sessionMiddleware, strTruthy, htne]
  · intro hf hm
    simp [sessionMiddleware, hf, hm]
  · intro hf hm
    simp [sessionMiddleware, hf, hm, nanoid_length]

/-- Witness for `c9_session_token`: adopting the header value. -/
theorem c9_session_token_witness :
    sessionMiddleware none "Token abc" (fun i => i) = String.drop "Token abc" 6 :=
  (c9_session_token none "Token abc" (fun i => i)).2.1 (by decide) (by decide)

/-! ## Lemmas for the create-then-resolve chain (claim C3) -/

/-- A resolve of a stored record with a nonempty `url` field succeeds:
it redirects to that url, reports the incremented counter, and the store
keeps the record with only the counter advanced. -/
theorem getHandler_ok (s : Store) (l u : String) (e : Entry) (k : Int)
    (h7 : l.length = LINKID_LEN) (he : s.lookup l = some e)
    (hu : e.hash.url = some u) (hune : u ≠ "")
    (ha : e.hash.accessed = some k) :
    getHandler s l =
      (Resp.ok ⟨k + 1, u⟩,
       s.put l { e with hash := { e.hash with accessed := some (k + 1) } }) := by
  simp [getHandler, hincrbyAccessed, hgetUrl, strTruthy, h7, he, hu, ha, hune,
    Store.lookup_put_self]

/-- After `N` sequential resolves of a record whose counter started at
`k`, the record is still present with the same `url` and counter
`k + N`. -/
theorem iterResolve_spec (l u : String) (h7 : l.length = LINKID_LEN)
    (hune : u ≠ "") :
    ∀ (N : Nat) (s : Store) (e : Entry) (k : Int),
      s.lookup l = some e → e.hash.url = some u → e.hash.accessed = some k →
      ∃ e' : Entry, (iterResolve s l N).lookup l = some e' ∧
        e'.hash.url = some u ∧ e'.hash.accessed = some (k + N) := by
  intro N
  induction N with
  | zero =>
    intro s e k he hu ha
    exact ⟨e, he, hu, by simpa using ha⟩
  | succ n ih =>
    intro s e k he hu ha
    obtain ⟨e', he', hu', ha'⟩ := ih s e k he hu ha
    rw [iterResolve, getHandler_ok (iterResolve s l n) l u e' (k + n) h7 he'
      hu' hune ha']
    refine ⟨_, Store.lookup_put_self _ _ _, by simpa using hu', ?_⟩
    simp only [Nat.cast_add, Nat.cast_one]
    ring_nf

/-- C3: for every valid absolute URL, creating a link via POST and then
resolving the returned identifier via GET redirects to the same URL on
every resolve, and the `(N+1)`-st sequential resolve of the freshly
created record (which starts with counter 0) reports access count
`N + 1`: each resolve increments the reported count by exactly 1. -/
theorem c3_create_then_resolve (s s0 : Store) (u b tok now port l : String)
    (gen : Nat → Nat → Nat) (out : PostOut)
    (hvalid : isAbsoluteURL u = true)
    (hpost : postHandler s { url := some u, baseUrl := some b, expire := none }
        tok gen now port = (Resp.ok out, s0))
    (hl : out.linkid = some l) :
    out.url = u ∧
    ∀ N : Nat, (getHandler (iterResolve s0 l N) l).1 =
      Resp.ok ⟨(N : Int) + 1, u⟩ := by
  have hune : u ≠ "" := isAbsoluteURL_ne_empty u hvalid
  have hpost' : postHandler s
      { url := some u, baseUrl := some b, expire := none } tok gen now port =
      (Resp.ok ⟨u, urlResolve b ((allocate s gen).getD "undefined"),
          allocate s gen, tok⟩,
       hmsetRecord s ((allocate s gen).getD "") u b 0 now tok) := by
    simp [postHandler, hvalid]
  have heq := hpost'.symm.trans hpost
  simp only [Prod.mk.injEq, Resp.ok.injEq] at heq
  obtain ⟨hout, hs0⟩ := heq
  subst hout
  simp only at hl
  rw [hl] at hs0
  simp only [Option.getD_some] at hs0
  have h7 : l.length = LINKID_LEN := allocate_some_length s gen l hl
  refine ⟨rfl, ?_⟩
  intro N
  obtain ⟨t, hlook⟩ := hmsetRecord_lookup_self s l u b now tok 0
  rw [hs0] at hlook
  obtain ⟨e', he', hu', ha'⟩ :=
    iterResolve_spec l u h7 hune N s0 _ 0 hlook rfl rfl
  rw [getHandler_ok (iterResolve s0 l N) l u e' (0 + N) h7 he' hu' hune ha']
  norm_num

/-- Witness for `c3_create_then_resolve`: one create and a second
resolve on concrete data reports access count 2. -/
theorem c3_create_then_resolve_witness :
    (getHandler (iterResolve
        [("ddddddd",
          { hash := { url := some "https://x.y/z", baseUrl := some "http://b/",
                      accessed := some 0, createdAt := some "now",
                      token := some "tk" },
            ttl := none })] "ddddddd" 1) "ddddddd").1 =
      Resp.ok ⟨(1 : Int) + 1, "https://x.y/z"⟩ :=
  (c3_create_then_resolve [] _ "https://x.y/z" "http://b/" "tk" "now" "3000"
    "ddddddd" (fun _ _ => 5)
    ⟨"https://x.y/z", "http://b/ddddddd", some "ddddddd", "tk"⟩
    (by decide) (by decide) rfl).2 1
